import Mathlib

/-!
Shallow embedding of the LiDAR ingestion pipeline (lidar-receiver).

The definitions below are translated from the TypeScript source:
  - `BufferManager` from src/lidar-receiver/src/processing/buffer-manager.ts
  - `ScanDatabase` from the SQLite metadata store (database.ts)
  - `LiDARProcessor` from the processor (lidar-processor.ts)
  - `LiDARWebSocketServer.handleMessage` / connection registry from
    src/lidar-receiver/src/server/websocket.ts
  - `authenticateConnection` from the auth middleware (auth.ts)

Machine numbers are modelled as `Nat`/`Int`; all byte/count arithmetic in the
source stays far below 2^53 so JavaScript number semantics agree with exact
integer arithmetic on the values involved.  JavaScript string truthiness
(`!s` is true for the empty string and for absent values) is modelled on
`Option String`.
-/

/-- Point as it arrives over the wire.  Each coordinate is `some v` when the
JavaScript value of that field is a number and `none` otherwise, mirroring
the `typeof p.x !== 'number'` checks in `validateScan`. -/
structure JsPoint where
  x : Option Int
  y : Option Int
  z : Option Int
deriving Repr, DecidableEq

/-- Decoded LiDAR scan (models the `LiDARScan` interface).  String fields use
`""` for an absent/empty JavaScript value, which is exactly the set of string
values that are falsy in JavaScript. -/
structure Scan where
  scanId : String
  sessionId : String
  deviceId : String
  timestamp : Int
  points : List JsPoint
deriving Repr, DecidableEq

/-- Estimated in-memory size of a scan: `points.length * 20 + 1000`
(from `BufferManager.estimateScanSize`). -/
def estimateScanSize (scan : Scan) : Nat :=
  scan.points.length * 20 + 1000

/-- State of the memory-aware buffer manager (buffer-manager.ts).  Event
emission (overflow/dropped/backpressure) carries no state and is omitted. -/
structure BufferManager where
  queue : List Scan
  maxQueueSize : Nat
  maxMemoryBytes : Nat
  currentMemoryBytes : Nat
  statsReceived : Nat
  statsProcessed : Nat
  statsDropped : Nat
  peakQueueSize : Nat
  peakMemoryBytes : Nat
deriving Repr, DecidableEq

/-- Freshly constructed buffer manager.  The source constructor receives the
byte bound as megabytes and multiplies by 1024*1024; we take the resulting
byte bound directly. -/
def mkBufferManager (maxQueueSize maxMemoryBytes : Nat) : BufferManager :=
  { queue := []
    maxQueueSize := maxQueueSize
    maxMemoryBytes := maxMemoryBytes
    currentMemoryBytes := 0
    statsReceived := 0
    statsProcessed := 0
    statsDropped := 0
    peakQueueSize := 0
    peakMemoryBytes := 0 }

/-- Translation of `BufferManager.enqueue`: bump `received`, estimate the
size, reject on the memory bound first, then on the count bound, otherwise
append to the tail and charge the estimate; returns the admission boolean. -/
def BufferManager.enqueue (b : BufferManager) (scan : Scan) : BufferManager × Bool :=
  let b0 := { b with statsReceived := b.statsReceived + 1 }
  let estimatedSize := estimateScanSize scan
  if b0.currentMemoryBytes + estimatedSize > b0.maxMemoryBytes then
    ({ b0 with statsDropped := b0.statsDropped + 1 }, false)
  else if b0.queue.length ≥ b0.maxQueueSize then
    ({ b0 with statsDropped := b0.statsDropped + 1 }, false)
  else
    let queue := b0.queue ++ [scan]
    let cur := b0.currentMemoryBytes + estimatedSize
    ({ b0 with
        queue := queue
        currentMemoryBytes := cur
        peakQueueSize := if queue.length > b0.peakQueueSize then queue.length else b0.peakQueueSize
        peakMemoryBytes := if cur > b0.peakMemoryBytes then cur else b0.peakMemoryBytes },
     true)

/-- Translation of `BufferManager.dequeue`: shift the head, bump `processed`,
release the recomputed estimate (`Math.max(0, cur - est)` is exactly `Nat`
truncated subtraction). -/
def BufferManager.dequeue (b : BufferManager) : BufferManager × Option Scan :=
  match b.queue with
  | [] => (b, none)
  | scan :: rest =>
      ({ b with
          queue := rest
          statsProcessed := b.statsProcessed + 1
          currentMemoryBytes := b.currentMemoryBytes - estimateScanSize scan },
       some scan)

/-- Translation of `BufferManager.size`. -/
def BufferManager.size (b : BufferManager) : Nat :=
  b.queue.length

/-- Translation of `BufferManager.isEmpty`. -/
def BufferManager.isEmpty (b : BufferManager) : Bool :=
  b.queue.length = 0

/-- Translation of the `drain` async generator: repeatedly dequeue until the
buffer is empty, yielding each dequeued scan.  Returns the final buffer state
together with the yielded scans in order. -/
def BufferManager.drain (b : BufferManager) : BufferManager × List Scan :=
  if h : b.queue = [] then (b, [])
  else
    match hd : b.dequeue with
    | (b', none) => (b', [])
    | (b', some scan) =>
        let r := b'.drain
        (r.1, scan :: r.2)
termination_by b.queue.length
decreasing_by
  simp only [BufferManager.dequeue] at hd
  cases hq : b.queue with
  | nil => exact absurd hq h
  | cons s rest =>
      rw [hq] at hd
      simp only at hd
      injection hd with h1 h2
      cases h1
      simp [hq]

/-- Row of the `sessions` table.  `endTime` is nullable (`endTime INTEGER`
with no NOT NULL, left NULL by the session insert). -/
structure SessionRow where
  sessionId : String
  deviceId : String
  startTime : Int
  endTime : Option Int
  scanCount : Nat
  totalPoints : Nat
  totalSizeBytes : Nat
deriving Repr, DecidableEq

/-- ScanMetadata record handed to `ScanDatabase.insertScan`, doubling as a
row of the `scans` table (the `createdAt` wall-clock column is omitted). -/
structure ScanMetadata where
  scanId : String
  sessionId : String
  deviceId : String
  timestamp : Int
  filePath : String
  sizeBytes : Nat
  pointCount : Nat
deriving Repr, DecidableEq

/-- State of the SQLite metadata store: the `sessions` and `scans` tables. -/
structure ScanDatabase where
  sessions : List SessionRow
  scanRows : List ScanMetadata
deriving Repr, DecidableEq

/-- Empty database, as after `createTables` on a fresh file. -/
def emptyDb : ScanDatabase :=
  { sessions := [], scanRows := [] }

/-- Translation of `insertSessionStmt`: INSERT a zero-counter session row with
`startTime` = the scan's timestamp and NULL `endTime`, ON CONFLICT(sessionId)
DO NOTHING. -/
def ScanDatabase.insertSessionIfAbsent (db : ScanDatabase) (m : ScanMetadata) : ScanDatabase :=
  if db.sessions.any (fun s => s.sessionId == m.sessionId) then db
  else
    { db with
        sessions := db.sessions ++
          [{ sessionId := m.sessionId
             deviceId := m.deviceId
             startTime := m.timestamp
             endTime := none
             scanCount := 0
             totalPoints := 0
             totalSizeBytes := 0 }] }

/-- Translation of `updateSessionStmt`: UPDATE sessions SET
scanCount = scanCount + 1, totalPoints = totalPoints + ?,
totalSizeBytes = totalSizeBytes + ?, endTime = ? WHERE sessionId = ?.
Note that `endTime` is assigned the parameter directly (no max). -/
def ScanDatabase.updateSession (db : ScanDatabase) (pointCount sizeBytes : Nat)
    (timestamp : Int) (sessionId : String) : ScanDatabase :=
  { db with
      sessions := db.sessions.map (fun s =>
        if s.sessionId == sessionId then
          { s with
              scanCount := s.scanCount + 1
              totalPoints := s.totalPoints + pointCount
              totalSizeBytes := s.totalSizeBytes + sizeBytes
              endTime := some timestamp }
        else s) }

/-- Translation of `ScanDatabase.insertScan`: session upsert, then the scan
row insert (UNIQUE on scanId; a duplicate raises, modelled by the `false`
flag), then the session counter update.  The three statements are separate
(no transaction), so a duplicate-scanId failure still leaves the session
upsert applied. -/
def ScanDatabase.insertScan (db : ScanDatabase) (m : ScanMetadata) : ScanDatabase × Bool :=
  let db1 := db.insertSessionIfAbsent m
  if db1.scanRows.any (fun r => r.scanId == m.scanId) then
    (db1, false)
  else
    let db2 := { db1 with scanRows := db1.scanRows ++ [m] }
    (db2.updateSession m.pointCount m.sizeBytes m.timestamp m.sessionId, true)

/-- Translation of `getSessionStmt`: SELECT * FROM sessions WHERE sessionId = ?. -/
def ScanDatabase.getSession (db : ScanDatabase) (sessionId : String) : Option SessionRow :=
  db.sessions.find? (fun s => s.sessionId == sessionId)

/-- State of the LiDAR processor (lidar-processor.ts).  `blobs` records the
blob files written by the file writer as (scanId, filePath) pairs; the
recurring interval timer itself carries no modelled state beyond
`isShuttingDown`. -/
structure LiDARProcessor where
  buffer : BufferManager
  db : ScanDatabase
  blobs : List (String × String)
  isShuttingDown : Bool
  statsReceived : Nat
  statsProcessed : Nat
  statsFailed : Nat
deriving Repr, DecidableEq

/-- Translation of `LiDARProcessor.validateScan`: required string fields are
truthy, timestamp is truthy and positive, points is a non-empty array, and
the point-structure check samples only the FIRST point's x/y/z types. -/
def LiDARProcessor.validateScan (scan : Scan) : Bool :=
  if scan.scanId == "" || scan.sessionId == "" || scan.deviceId == "" then false
  else if scan.timestamp ≤ 0 then false
  else
    match scan.points with
    | [] => false
    | firstPoint :: _ =>
        firstPoint.x.isSome && firstPoint.y.isSome && firstPoint.z.isSome

/-- Translation of `LiDARProcessor.submit`: validate, bump `received`,
enqueue to the buffer, bump `failed` on a backpressure rejection, and return
the enqueue decision. -/
def LiDARProcessor.submit (p : LiDARProcessor) (scan : Scan) : LiDARProcessor × Bool :=
  if LiDARProcessor.validateScan scan = false then (p, false)
  else
    let p1 := { p with statsReceived := p.statsReceived + 1 }
    let r := p1.buffer.enqueue scan
    let p2 := { p1 with buffer := r.1 }
    if r.2 then (p2, true)
    else ({ p2 with statsFailed := p2.statsFailed + 1 }, false)

/-- FileWriter model: `writeScan` either succeeds with a relative file path
and the byte length written, or throws (`none`). -/
def FileWriterModel : Type :=
  Scan → Option (String × Nat)

/-- Translation of `LiDARProcessor.processNext`: return immediately while
shutting down; otherwise dequeue one scan, write its blob, build the
metadata and insert it; any failure (blob write or insert) bumps `failed`,
success bumps `processed`. -/
def LiDARProcessor.processNext (fw : FileWriterModel) (p : LiDARProcessor) : LiDARProcessor :=
  if p.isShuttingDown then p
  else
    match p.buffer.dequeue with
    | (b, none) => { p with buffer := b }
    | (b, some scan) =>
        match fw scan with
        | none => { p with buffer := b, statsFailed := p.statsFailed + 1 }
        | some (filePath, sizeBytes) =>
            let p1 := { p with buffer := b, blobs := p.blobs ++ [(scan.scanId, filePath)] }
            let m : ScanMetadata :=
              { scanId := scan.scanId
                sessionId := scan.sessionId
                deviceId := scan.deviceId
                timestamp := scan.timestamp
                filePath := filePath
                sizeBytes := sizeBytes
                pointCount := scan.points.length }
            match p1.db.insertScan m with
            | (db, true) => { p1 with db := db, statsProcessed := p1.statsProcessed + 1 }
            | (db, false) => { p1 with db := db, statsFailed := p1.statsFailed + 1 }

/-- Processing never lengthens the buffer queue (it only ever removes the
head); this fact supports the termination argument of the shutdown loop. -/
theorem processNext_queue_length_le (fw : FileWriterModel) (p : LiDARProcessor) :
    (LiDARProcessor.processNext fw p).buffer.queue.length ≤ p.buffer.queue.length := by
  unfold LiDARProcessor.processNext
  split
  · exact Nat.le_refl _
  · cases hq : p.buffer.queue with
    | nil => simp [BufferManager.dequeue, hq]
    | cons s rest =>
        simp only [BufferManager.dequeue, hq]
        cases fw s with
        | none => simp
        | some r =>
            cases r with
            | mk fp sz =>
                simp only
                split <;> simp

/-- Translation of the shutdown drain loop
`for await (const scan of this.buffer.drain()) { await this.processNext(); }`:
each iteration the generator dequeues one scan and yields it (the yielded
scan is bound but never used by the body), then the body runs `processNext`
on the resulting state. -/
def LiDARProcessor.shutdownLoop (fw : FileWriterModel) (p : LiDARProcessor) : LiDARProcessor :=
  if hq : p.buffer.queue = [] then p
  else
    match hd : p.buffer.dequeue with
    | (b, none) => { p with buffer := b }
    | (b, some _) =>
        LiDARProcessor.shutdownLoop fw (LiDARProcessor.processNext fw { p with buffer := b })
termination_by p.buffer.queue.length
decreasing_by
  have hle := processNext_queue_length_le fw { p with buffer := b }
  simp only at hle
  have hb : b.queue.length + 1 = p.buffer.queue.length := by
    simp only [BufferManager.dequeue] at hd
    cases hcase : p.buffer.queue with
    | nil => rw [hcase] at hd; simp at hd
    | cons s rest =>
        rw [hcase] at hd
        simp only at hd
        injection hd with h1 h2
        cases h1
        simp [hcase]
  omega

/-- Translation of `LiDARProcessor.shutdown`: set the shutdown flag, stop the
interval timer, and if the buffer is non-empty run the drain loop; the final
`db.checkpoint()` has no logical state effect. -/
def LiDARProcessor.shutdown (fw : FileWriterModel) (p : LiDARProcessor) : LiDARProcessor :=
  let p1 := { p with isShuttingDown := true }
  if p1.buffer.size > 0 then LiDARProcessor.shutdownLoop fw p1 else p1

/-- Per-connection client record kept by the WebSocket server.  `ws` is an
abstract socket handle identity. -/
structure Client where
  ws : Nat
  deviceId : String
  connectedAt : Int
  scansReceived : Nat
  lastScanAt : Int
deriving Repr, DecidableEq

/-- Outbound JSON envelope (`WSMessage`). -/
inductive WSMessage where
  | ack (scanId : String) (received : Int) (stored : Bool)
  | ackWelcome (deviceId : String) (serverTime : Int)
  | errorMsg (error : String)
deriving Repr, DecidableEq

/-- Translation of the backfill step `if (!scan.deviceId) scan.deviceId =
client.deviceId` at the top of `handleMessage`. -/
def backfillDeviceId (client : Client) (decoded : Scan) : Scan :=
  if decoded.deviceId == "" then { decoded with deviceId := client.deviceId } else decoded

/-- Translation of `LiDARWebSocketServer.handleMessage`.  The argument
`data` is the decoded frame: `none` when MessagePack decoding throws.
Returns the updated processor, the updated client record, and the envelope
sent back on the originating connection. -/
def handleMessage (p : LiDARProcessor) (client : Client) (data : Option Scan)
    (receiveTime : Int) : LiDARProcessor × Client × WSMessage :=
  match data with
  | none => (p, client, WSMessage.errorMsg "Failed to process scan")
  | some decoded =>
      let scan := backfillDeviceId client decoded
      if scan.deviceId ≠ client.deviceId then
        (p, client, WSMessage.errorMsg "Device ID mismatch")
      else
        let r := p.submit scan
        let client1 :=
          { client with scansReceived := client.scansReceived + 1, lastScanAt := receiveTime }
        (r.1, client1, WSMessage.ack scan.scanId receiveTime r.2)

/-- Connection registry: the `clients: Map<string, Client>` of the server,
as an association list in insertion order. -/
abbrev Registry : Type :=
  List (String × Client)

/-- JavaScript `Map.set`: replace in place when the key exists, else append. -/
def mapSet (m : Registry) (k : String) (v : Client) : Registry :=
  if m.any (fun e => e.1 == k) then
    m.map (fun e => if e.1 == k then (k, v) else e)
  else m ++ [(k, v)]

/-- JavaScript `Map.delete` on the registry key. -/
def mapDelete (m : Registry) (k : String) : Registry :=
  m.filter (fun e => e.1 != k)

/-- JavaScript `Map.get`. -/
def mapGet (m : Registry) (k : String) : Option Client :=
  (m.find? (fun e => e.1 == k)).map (fun e => e.2)

/-- Translation of `handleConnection`: build the client record for the new
socket and `clients.set(deviceId, client)`; returns the registry and the
client record captured by that socket's event handlers. -/
def handleConnection (reg : Registry) (ws : Nat) (deviceId : String) (now : Int) :
    Registry × Client :=
  let client : Client :=
    { ws := ws, deviceId := deviceId, connectedAt := now, scansReceived := 0, lastScanAt := 0 }
  (mapSet reg deviceId client, client)

/-- Translation of `handleDisconnect`: `clients.delete(client.deviceId)`,
keyed only by the closing client's deviceId. -/
def handleDisconnect (reg : Registry) (client : Client) : Registry :=
  mapDelete reg client.deviceId

/-- Connection info returned by `getClients` (the active-client listing). -/
structure ClientInfo where
  deviceId : String
  connectedAt : Int
  scansReceived : Nat
  lastScanAt : Int
deriving Repr, DecidableEq

/-- Translation of `getClients`. -/
def getClients (reg : Registry) : List ClientInfo :=
  reg.map (fun e =>
    { deviceId := e.2.deviceId
      connectedAt := e.2.connectedAt
      scansReceived := e.2.scansReceived
      lastScanAt := e.2.lastScanAt })

/-- Socket handles that `broadcast` writes to (it iterates the registry
values and sends on each client's socket). -/
def broadcastTargets (reg : Registry) : List Nat :=
  reg.map (fun e => e.2.ws)

/-- Credentials of a handshake request as seen by `authenticateConnection`:
the four query parameters and two headers it reads.  `none` models an absent
value. -/
structure AuthRequest where
  queryApiKey : Option String
  queryApiKeyAlt : Option String
  headerApiKey : Option String
  headerDeviceId : Option String
  queryDeviceId : Option String
  queryDeviceIdAlt : Option String
deriving Repr, DecidableEq

/-- Result of `authenticateConnection`. -/
structure AuthResult where
  authenticated : Bool
  deviceId : Option String
  error : Option String
deriving Repr, DecidableEq

/-- JavaScript `a || b` on string-or-absent values: the left operand wins
exactly when it is truthy (present and non-empty). -/
def jsOr (a b : Option String) : Option String :=
  match a with
  | some s => if s == "" then b else some s
  | none => b

/-- JavaScript truthiness of a string-or-absent value. -/
def jsTruthy (a : Option String) : Bool :=
  match a with
  | some s => s != ""
  | none => false

/-- Translation of `authenticateConnection`: the API key is resolved as
`query.apiKey || query.api_key || headers['x-api-key']` and the device id as
`headers['x-device-id'] || query.deviceId || query.device_id`; then the
ordered checks: key present, key equals the configured secret, device id
present. -/
def authenticateConnection (apiKeyEnv : String) (r : AuthRequest) : AuthResult :=
  let apiKey := jsOr (jsOr r.queryApiKey r.queryApiKeyAlt) r.headerApiKey
  let deviceId := jsOr r.headerDeviceId (jsOr r.queryDeviceId r.queryDeviceIdAlt)
  if jsTruthy apiKey = false then
    { authenticated := false, deviceId := none, error := some "Missing API key" }
  else if apiKey ≠ some apiKeyEnv then
    { authenticated := false, deviceId := none, error := some "Invalid API key" }
  else if jsTruthy deviceId = false then
    { authenticated := false, deviceId := none, error := some "Missing device ID" }
  else
    { authenticated := true, deviceId := deviceId, error := none }

/-- Bounded-buffer invariant used by the verification: the queue respects
both configured bounds and the tracked byte total equals the sum of the
entries' estimates. -/
def BufferManager.Inv (b : BufferManager) : Prop :=
  b.queue.length ≤ b.maxQueueSize ∧
  b.currentMemoryBytes ≤ b.maxMemoryBytes ∧
  b.currentMemoryBytes = (b.queue.map estimateScanSize).sum

/-- Buffer states reachable from a freshly constructed buffer with bounds
`maxQ`/`maxB` by any sequence of enqueue, dequeue and drain operations. -/
inductive BufferManager.Reachable (maxQ maxB : Nat) : BufferManager → Prop where
  | init : BufferManager.Reachable maxQ maxB (mkBufferManager maxQ maxB)
  | enq (scan : Scan) {b : BufferManager} :
      BufferManager.Reachable maxQ maxB b →
      BufferManager.Reachable maxQ maxB (b.enqueue scan).1
  | deq {b : BufferManager} :
      BufferManager.Reachable maxQ maxB b →
      BufferManager.Reachable maxQ maxB b.dequeue.1
  | drainStep {b : BufferManager} :
      BufferManager.Reachable maxQ maxB b →
      BufferManager.Reachable maxQ maxB b.drain.1

/-- Concrete fixture: a well-formed point. -/
def ptOk : JsPoint :=
  { x := some 1, y := some 2, z := some 3 }

/-- Concrete fixture: a malformed point (its x field is not a number). -/
def ptBad : JsPoint :=
  { x := none, y := some 2, z := some 3 }

/-- Concrete fixture: a valid scan with `n` well-formed points. -/
def mkScanFix (id : String) (n : Nat) : Scan :=
  { scanId := id, sessionId := "sess", deviceId := "dev", timestamp := 100,
    points := List.replicate n ptOk }

/-- Concrete fixture: a file writer whose writes always succeed. -/
def fwAlwaysOk : FileWriterModel :=
  fun scan => some ("2026/01/01/00/" ++ scan.scanId ++ ".msgpack", 64)

/-- Concrete fixture: a processor with one valid scan queued, plenty of
buffer headroom, empty storage, and not yet shutting down. -/
def pFix : LiDARProcessor :=
  { buffer := { mkBufferManager 100 1000000 with
                  queue := [mkScanFix "s1" 3], currentMemoryBytes := 1060 }
    db := emptyDb
    blobs := []
    isShuttingDown := false
    statsReceived := 1
    statsProcessed := 0
    statsFailed := 0 }

/-- Concrete fixture: an authenticated connection record for device "dev". -/
def cFix : Client :=
  { ws := 7, deviceId := "dev", connectedAt := 0, scansReceived := 0, lastScanAt := 0 }

/-- Concrete fixture: scan metadata with timestamp 100. -/
def mFix1 : ScanMetadata :=
  { scanId := "s1", sessionId := "sess", deviceId := "dev", timestamp := 100,
    filePath := "p1", sizeBytes := 10, pointCount := 1 }

/-- Concrete fixture: scan metadata for the same session with the older
timestamp 50. -/
def mFix2 : ScanMetadata :=
  { scanId := "s2", sessionId := "sess", deviceId := "dev", timestamp := 50,
    filePath := "p2", sizeBytes := 10, pointCount := 1 }

/-- Concrete fixture: a handshake request carrying the device identifier in
BOTH a query parameter and the x-device-id header, and a valid API key in
the query. -/
def rFix : AuthRequest :=
  { queryApiKey := some "secret"
    queryApiKeyAlt := none
    headerApiKey := none
    headerDeviceId := some "header-dev"
    queryDeviceId := some "query-dev"
    queryDeviceIdAlt := none }

/-! ## Helper lemmas about the buffer operations -/

theorem BufferManager.enqueue_fst_max (b : BufferManager) (scan : Scan) :
    (b.enqueue scan).1.maxQueueSize = b.maxQueueSize ∧
    (b.enqueue scan).1.maxMemoryBytes = b.maxMemoryBytes := by
  simp only [BufferManager.enqueue]
  split
  · exact ⟨rfl, rfl⟩
  · split
    · exact ⟨rfl, rfl⟩
    · exact ⟨rfl, rfl⟩

theorem BufferManager.dequeue_fst_max (b : BufferManager) :
    b.dequeue.1.maxQueueSize = b.maxQueueSize ∧
    b.dequeue.1.maxMemoryBytes = b.maxMemoryBytes := by
  simp only [BufferManager.dequeue]
  cases hq : b.queue <;> simp

theorem BufferManager.enqueue_inv (b : BufferManager) (scan : Scan) (h : b.Inv) :
    (b.enqueue scan).1.Inv := by
  obtain ⟨hlen, hmem, hacc⟩ := h
  simp only [BufferManager.enqueue, BufferManager.Inv]
  split
  · exact ⟨hlen, hmem, hacc⟩
  · split
    · exact ⟨hlen, hmem, hacc⟩
    · next hrej hcnt =>
        simp only [not_lt, not_le] at hrej hcnt
        dsimp only
        refine ⟨?_, ?_, ?_⟩
        · simp only [List.length_append, List.length_singleton]
          omega
        · omega
        · simp [List.map_append, List.sum_append, hacc]

theorem BufferManager.dequeue_inv (b : BufferManager) (h : b.Inv) :
    b.dequeue.1.Inv := by
  obtain ⟨hlen, hmem, hacc⟩ := h
  simp only [BufferManager.dequeue, BufferManager.Inv]
  cases hq : b.queue with
  | nil =>
      simp only
      rw [hq] at hlen hacc
      exact ⟨by simp [hq, hlen], hmem, by simp [hq, hacc]⟩
  | cons s rest =>
      simp only
      rw [hq] at hlen hacc
      simp only [List.length_cons, List.map_cons, List.sum_cons] at hlen hacc
      refine ⟨by omega, by omega, by omega⟩

theorem BufferManager.drain_facts :
    ∀ (n : Nat) (b : BufferManager), b.queue.length ≤ n →
      b.drain.1.queue = [] ∧ (b.Inv → b.drain.1.Inv) ∧
      b.drain.1.maxQueueSize = b.maxQueueSize ∧
      b.drain.1.maxMemoryBytes = b.maxMemoryBytes := by
  intro n
  induction n with
  | zero =>
      intro b hb
      have hq : b.queue = [] := List.eq_nil_of_length_eq_zero (Nat.le_zero.mp hb)
      rw [BufferManager.drain]
      simp [hq]
  | succ n ih =>
      intro b hb
      rw [BufferManager.drain]
      by_cases hq : b.queue = []
      · simp [hq]
      · rw [dif_neg hq]
        cases hq2 : b.queue with
        | nil => exact absurd hq2 hq
        | cons s rest =>
            have hdq1 : b.dequeue.2 = some s := by
              simp [BufferManager.dequeue, hq2]
            have hdq2 : b.dequeue.1.queue = rest := by
              simp [BufferManager.dequeue, hq2]
            split
            · next b' heq =>
                rw [heq] at hdq1
                cases hdq1
            · next b' scan heq =>
                have hb' : b' = b.dequeue.1 := by rw [heq]
                have hlen : b'.queue.length ≤ n := by
                  rw [hb', hdq2]
                  rw [hq2] at hb
                  simp only [List.length_cons] at hb
                  omega
                obtain ⟨ihq, ihinv, ihmq, ihmb⟩ := ih b' hlen
                refine ⟨ihq, ?_, ?_, ?_⟩
                · intro hinv
                  apply ihinv
                  rw [hb']
                  exact BufferManager.dequeue_inv b hinv
                · rw [ihmq, hb']
                  exact (BufferManager.dequeue_fst_max b).1
                · rw [ihmb, hb']
                  exact (BufferManager.dequeue_fst_max b).2

theorem BufferManager.reachable_inv (maxQ maxB : Nat) (b : BufferManager)
    (h : BufferManager.Reachable maxQ maxB b) :
    b.maxQueueSize = maxQ ∧ b.maxMemoryBytes = maxB ∧ b.Inv := by
  induction h with
  | init => exact ⟨rfl, rfl, by simp [BufferManager.Inv, mkBufferManager]⟩
  | enq scan hb ih =>
      obtain ⟨hq, hm, hinv⟩ := ih
      obtain ⟨hq2, hm2⟩ := BufferManager.enqueue_fst_max _ scan
      exact ⟨hq2.trans hq, hm2.trans hm, BufferManager.enqueue_inv _ scan hinv⟩
  | deq hb ih =>
      obtain ⟨hq, hm, hinv⟩ := ih
      obtain ⟨hq2, hm2⟩ := BufferManager.dequeue_fst_max _
      exact ⟨hq2.trans hq, hm2.trans hm, BufferManager.dequeue_inv _ hinv⟩
  | drainStep hb ih =>
      obtain ⟨hq, hm, hinv⟩ := ih
      obtain ⟨_, hinv2, hq2, hm2⟩ := BufferManager.drain_facts _ _ (Nat.le_refl _)
      exact ⟨hq2.trans hq, hm2.trans hm, hinv2 hinv⟩

/-! ## Claim C4 -/

/-- C4: for every enqueue on a queue with bounds maxCount/maxBytes fixed at
construction, and in fact after any sequence of enqueue, dequeue and drain
operations starting from the empty queue, `size() ≤ maxCount` and the tracked
byte total `currentBytes ≤ maxBytes`. -/
theorem buffer_bounds_invariant (maxQ maxB : Nat) (b : BufferManager)
    (h : BufferManager.Reachable maxQ maxB b) :
    b.size ≤ maxQ ∧ b.currentMemoryBytes ≤ maxB := by
  obtain ⟨hq, hm, hinv⟩ := BufferManager.reachable_inv maxQ maxB b h
  constructor
  · rw [BufferManager.size, ← hq]
    exact hinv.1
  · rw [← hm]
    exact hinv.2.1

theorem buffer_bounds_invariant_witness :
    ((mkBufferManager 3 3000).enqueue (mkScanFix "w4" 50)).1.size ≤ 3 ∧
    ((mkBufferManager 3 3000).enqueue (mkScanFix "w4" 50)).1.currentMemoryBytes ≤ 3000 :=
  buffer_bounds_invariant 3 3000 _
    (BufferManager.Reachable.enq _ BufferManager.Reachable.init)

/-! ## Claim C5 -/

/-- C5: enqueue rejects (returns false) exactly when the memory bound would
be exceeded (checked first) or, otherwise, when the count bound is already
reached; a rejected enqueue leaves the queue contents and the tracked byte
total unchanged. -/
theorem enqueue_rejection_characterization (b : BufferManager) (scan : Scan) :
    ((b.enqueue scan).2 = false ↔
      (b.maxMemoryBytes < b.currentMemoryBytes + estimateScanSize scan ∨
        (b.currentMemoryBytes + estimateScanSize scan ≤ b.maxMemoryBytes ∧
          b.maxQueueSize ≤ b.queue.length))) ∧
    ((b.enqueue scan).2 = false →
      (b.enqueue scan).1.queue = b.queue ∧
      (b.enqueue scan).1.currentMemoryBytes = b.currentMemoryBytes) := by
  simp only [BufferManager.enqueue]
  split
  · next hmem =>
      dsimp only
      refine ⟨⟨fun _ => Or.inl (by omega), fun _ => rfl⟩, fun _ => ⟨rfl, rfl⟩⟩
  · split
    · next hmem hcnt =>
        dsimp only
        simp only [not_lt] at hmem
        refine ⟨⟨fun _ => Or.inr ⟨by omega, by omega⟩, fun _ => rfl⟩, fun _ => ⟨rfl, rfl⟩⟩
    · next hmem hcnt =>
        dsimp only
        simp only [not_lt, ge_iff_le, not_le] at hmem hcnt
        constructor
        · constructor
          · intro hfalse
            cases hfalse
          · intro hdisj
            rcases hdisj with hl | ⟨_, hr⟩
            · omega
            · omega
        · intro hfalse
          cases hfalse

theorem enqueue_rejection_characterization_witness :
    ((mkBufferManager 100 3000).enqueue (mkScanFix "w5a" 50)).2 = true ∧
    ((mkBufferManager 100 3000).enqueue (mkScanFix "w5a" 50)).1.currentMemoryBytes = 2000 ∧
    ((((mkBufferManager 100 3000).enqueue (mkScanFix "w5a" 50)).1).enqueue
        (mkScanFix "w5b" 10)).2 = false ∧
    ((((mkBufferManager 100 3000).enqueue (mkScanFix "w5a" 50)).1).enqueue
        (mkScanFix "w5b" 10)).1.currentMemoryBytes = 2000 := by
  refine ⟨by decide, by decide, ?_, ?_⟩
  · exact (enqueue_rejection_characterization _ _).1.mpr (Or.inl (by decide))
  · have h := (enqueue_rejection_characterization
      (((mkBufferManager 100 3000).enqueue (mkScanFix "w5a" 50)).1)
      (mkScanFix "w5b" 10)).2 (by decide)
    exact h.2.trans (by decide)

/-! ## Claim C6 -/

/-- C6: from any reachable buffer state (any mix of accepted and rejected
enqueues and dequeues), dequeuing until the queue is empty (the drain loop)
brings the tracked byte total back to exactly zero and the size to zero. -/
theorem buffer_conservation_after_drain (maxQ maxB : Nat) (b : BufferManager)
    (h : BufferManager.Reachable maxQ maxB b) :
    b.drain.1.currentMemoryBytes = 0 ∧ b.drain.1.size = 0 := by
  have hinv := (BufferManager.reachable_inv maxQ maxB _
    (BufferManager.Reachable.drainStep h)).2.2
  have hq := (BufferManager.drain_facts b.queue.length b (Nat.le_refl _)).1
  constructor
  · have hacc := hinv.2.2
    rw [hq] at hacc
    simpa using hacc
  · simp [BufferManager.size, hq]

theorem buffer_conservation_after_drain_witness :
    ((((mkBufferManager 100 3000).enqueue (mkScanFix "w6a" 50)).1.enqueue
        (mkScanFix "w6b" 10)).1.drain).1.currentMemoryBytes = 0 ∧
    ((((mkBufferManager 100 3000).enqueue (mkScanFix "w6a" 50)).1.enqueue
        (mkScanFix "w6b" 10)).1.drain).1.size = 0 :=
  buffer_conservation_after_drain 100 3000 _
    (BufferManager.Reachable.enq _
      (BufferManager.Reachable.enq _ BufferManager.Reachable.init))

/-! ## Claim C3 -/

theorem updateSession_endTime_eq (db : ScanDatabase) (pc sb : Nat) (ts : Int) (sid : String) :
    ∀ row ∈ (db.updateSession pc sb ts sid).sessions, row.sessionId = sid →
      row.endTime = some ts := by
  intro row hrow hsid
  simp only [ScanDatabase.updateSession, List.mem_map] at hrow
  obtain ⟨e, he, hfe⟩ := hrow
  by_cases hc : e.sessionId == sid
  · rw [if_pos hc] at hfe
    rw [← hfe]
  · rw [if_neg hc] at hfe
    rw [← hfe] at hsid
    exact absurd hsid (by simpa using hc)

/-- C3 counterexample: inserting a scan with timestamp 100 and then one with
the older timestamp 50 into the same session leaves the session's `endTime`
at 50, not at `max(100, 50) = 100` — the endTime moved backward. -/
theorem session_endTime_moves_backward :
    (((emptyDb.insertScan mFix1).1.getSession "sess").map (fun s => s.endTime)) =
      some (some 100) ∧
    ((((emptyDb.insertScan mFix1).1.insertScan mFix2).1.getSession "sess").map
      (fun s => s.endTime)) = some (some 50) ∧
    (50 : Int) < 100 :=
  ⟨by decide, by decide, by decide⟩

/-- C3 (amended): a successful metadata insert sets the session's `endTime`
unconditionally to the inserted scan's timestamp (the UPDATE assigns the
parameter directly, with no max against the previous value), so `endTime`
moves backward whenever a scan older than the current `endTime` is
inserted. -/
theorem insertScan_overwrites_endTime (db : ScanDatabase) (m : ScanMetadata)
    (h : (db.insertScan m).2 = true) :
    ∀ row ∈ (db.insertScan m).1.sessions, row.sessionId = m.sessionId →
      row.endTime = some m.timestamp := by
  intro row hrow hsid
  simp only [ScanDatabase.insertScan] at h hrow
  by_cases hdup : (db.insertSessionIfAbsent m).scanRows.any (fun r => r.scanId == m.scanId)
  · rw [if_pos hdup] at h
    cases h
  · rw [if_neg hdup] at hrow
    exact updateSession_endTime_eq _ _ _ _ _ row hrow hsid

theorem insertScan_overwrites_endTime_witness :
    ({ sessionId := "sess", deviceId := "dev", startTime := 100, endTime := some 50,
       scanCount := 2, totalPoints := 2, totalSizeBytes := 20 } : SessionRow).endTime =
      some mFix2.timestamp :=
  insertScan_overwrites_endTime (emptyDb.insertScan mFix1).1 mFix2 (by decide)
    _ (by decide) (by decide)

/-! ## Claim C9 -/

/-- C9: validation samples only the first point: any scan with truthy
scanId/sessionId/deviceId, positive timestamp, and a first point with
numeric x, y, z passes `validateScan` — whatever the later points look
like — and `submit` then hands it straight to queue admission, returning
the enqueue decision. -/
theorem validateScan_samples_only_first_point (scan : Scan) (p0 : JsPoint)
    (rest : List JsPoint)
    (h1 : scan.scanId ≠ "") (h2 : scan.sessionId ≠ "") (h3 : scan.deviceId ≠ "")
    (h4 : 0 < scan.timestamp) (h5 : scan.points = p0 :: rest)
    (h6 : p0.x.isSome = true) (h7 : p0.y.isSome = true) (h8 : p0.z.isSome = true) :
    LiDARProcessor.validateScan scan = true ∧
    ∀ p : LiDARProcessor, (p.submit scan).2 = (p.buffer.enqueue scan).2 := by
  have hval : LiDARProcessor.validateScan scan = true := by
    simp only [LiDARProcessor.validateScan, h5]
    simp [h1, h2, h3, h6, h7, h8, show ¬ scan.timestamp ≤ 0 by omega]
  refine ⟨hval, ?_⟩
  intro p
  simp only [LiDARProcessor.submit, hval]
  cases hr : (p.buffer.enqueue scan).2 <;> simp [hr]

theorem validateScan_samples_only_first_point_witness :
    LiDARProcessor.validateScan
      { scanId := "a", sessionId := "b", deviceId := "dev", timestamp := 5,
        points := [ptOk, ptBad] } = true ∧
    (pFix.submit
      { scanId := "a", sessionId := "b", deviceId := "dev", timestamp := 5,
        points := [ptOk, ptBad] }).2 =
    (pFix.buffer.enqueue
      { scanId := "a", sessionId := "b", deviceId := "dev", timestamp := 5,
        points := [ptOk, ptBad] }).2 := by
  have h := validateScan_samples_only_first_point
    { scanId := "a", sessionId := "b", deviceId := "dev", timestamp := 5,
      points := [ptOk, ptBad] } ptOk [ptBad]
    (by decide) (by decide) (by decide) (by decide) rfl (by decide) (by decide) (by decide)
  exact ⟨h.1, h.2 pFix⟩

/-! ## Claim C1 -/

theorem processNext_of_shuttingDown (fw : FileWriterModel) (p : LiDARProcessor)
    (h : p.isShuttingDown = true) : LiDARProcessor.processNext fw p = p := by
  unfold LiDARProcessor.processNext
  simp [h]

theorem shutdownLoop_discards (fw : FileWriterModel) :
    ∀ (n : Nat) (p : LiDARProcessor), p.buffer.queue.length ≤ n →
      p.isShuttingDown = true →
      (LiDARProcessor.shutdownLoop fw p).db = p.db ∧
      (LiDARProcessor.shutdownLoop fw p).blobs = p.blobs ∧
      (LiDARProcessor.shutdownLoop fw p).statsProcessed = p.statsProcessed ∧
      (LiDARProcessor.shutdownLoop fw p).buffer.queue = [] := by
  intro n
  induction n with
  | zero =>
      intro p hlen hflag
      have hq : p.buffer.queue = [] := List.eq_nil_of_length_eq_zero (Nat.le_zero.mp hlen)
      rw [LiDARProcessor.shutdownLoop]
      simp [hq]
  | succ n ih =>
      intro p hlen hflag
      rw [LiDARProcessor.shutdownLoop]
      by_cases hq : p.buffer.queue = []
      · simp [hq]
      · rw [dif_neg hq]
        cases hq2 : p.buffer.queue with
        | nil => exact absurd hq2 hq
        | cons s rest =>
            have hdq1 : p.buffer.dequeue.2 = some s := by
              simp [BufferManager.dequeue, hq2]
            have hdq2 : p.buffer.dequeue.1.queue = rest := by
              simp [BufferManager.dequeue, hq2]
            split
            · next b' heq =>
                rw [heq] at hdq1
                cases hdq1
            · next b' scan heq =>
                have hb' : b' = p.buffer.dequeue.1 := by rw [heq]
                have hpn : LiDARProcessor.processNext fw { p with buffer := b' } =
                    { p with buffer := b' } :=
                  processNext_of_shuttingDown fw _ (by simpa using hflag)
                rw [hpn]
                have hlen2 : ({ p with buffer := b' } : LiDARProcessor).buffer.queue.length ≤ n := by
                  dsimp only
                  rw [hb', hdq2]
                  rw [hq2] at hlen
                  simp only [List.length_cons] at hlen
                  omega
                exact ih _ hlen2 (by simpa using hflag)

/-- C1 (code bug): on graceful shutdown with one scan still queued and a
file writer that always succeeds, `shutdown` empties the buffer without
writing any blob, inserting any metadata row, or counting anything as
processed — the drain loop discards every queued scan because `processNext`
returns immediately once `isShuttingDown` is set (and the scan yielded by
`drain` is never used).  The same state processed by a normal tick
(`processNext` before shutdown) does store the scan. -/
theorem shutdown_discards_buffered_scans :
    (LiDARProcessor.shutdown fwAlwaysOk pFix).buffer.queue = [] ∧
    (LiDARProcessor.shutdown fwAlwaysOk pFix).db.scanRows = [] ∧
    (LiDARProcessor.shutdown fwAlwaysOk pFix).blobs = [] ∧
    (LiDARProcessor.shutdown fwAlwaysOk pFix).statsProcessed = 0 ∧
    (LiDARProcessor.processNext fwAlwaysOk pFix).db.scanRows.length = 1 := by
  have hsd : LiDARProcessor.shutdown fwAlwaysOk pFix =
      LiDARProcessor.shutdownLoop fwAlwaysOk { pFix with isShuttingDown := true } := by
    rw [LiDARProcessor.shutdown]
    rw [if_pos (by decide)]
  obtain ⟨h1, h2, h3, h4⟩ := shutdownLoop_discards fwAlwaysOk
    ({ pFix with isShuttingDown := true } : LiDARProcessor).buffer.queue.length
    { pFix with isShuttingDown := true } (Nat.le_refl _) rfl
  rw [hsd]
  refine ⟨h4, ?_, ?_, ?_, by decide⟩
  · rw [h1]
    decide
  · rw [h2]
    decide
  · rw [h3]
    decide

/-! ## Claim C2 -/

theorem submit_preserves_storage (p : LiDARProcessor) (scan : Scan) :
    (p.submit scan).1.db = p.db ∧ (p.submit scan).1.blobs = p.blobs := by
  simp only [LiDARProcessor.submit]
  split
  · exact ⟨rfl, rfl⟩
  · split
    · exact ⟨rfl, rfl⟩
    · exact ⟨rfl, rfl⟩

/-- C2 counterexample: a valid scan accepted into the queue is acknowledged
with `stored: true` by the message handler while the metadata store and the
blob store are still untouched — the acknowledgment is emitted before (not
after) the scan's blob write and metadata insert, and reports queue
admission rather than the storage outcome. -/
theorem ack_emitted_before_storage :
    (handleMessage pFix cFix (some (mkScanFix "s9" 2)) 555).2.2 =
      WSMessage.ack "s9" 555 true ∧
    (handleMessage pFix cFix (some (mkScanFix "s9" 2)) 555).1.db.scanRows = [] ∧
    (handleMessage pFix cFix (some (mkScanFix "s9" 2)) 555).1.blobs = [] :=
  ⟨by decide, by decide, by decide⟩

/-- C2 (amended): for every decoded frame that passes the device-ID check,
the acknowledgment is emitted synchronously by the message handler and its
`stored` flag equals the result of `submit` (validation plus queue
admission); the blob write and metadata insert have not run at emission
time (the processor's stores are unchanged), so their outcome is not what
the acknowledgment reports. -/
theorem ack_reflects_queue_admission (p : LiDARProcessor) (client : Client)
    (decoded : Scan) (rt : Int)
    (hmatch : (backfillDeviceId client decoded).deviceId = client.deviceId) :
    (handleMessage p client (some decoded) rt).2.2 =
      WSMessage.ack (backfillDeviceId client decoded).scanId rt
        (p.submit (backfillDeviceId client decoded)).2 ∧
    (handleMessage p client (some decoded) rt).1.db = p.db ∧
    (handleMessage p client (some decoded) rt).1.blobs = p.blobs := by
  simp only [handleMessage]
  rw [if_neg (not_ne_iff.mpr hmatch)]
  exact ⟨rfl, (submit_preserves_storage p _).1, (submit_preserves_storage p _).2⟩

theorem ack_reflects_queue_admission_witness :
    (handleMessage pFix cFix (some (mkScanFix "s9" 2)) 555).2.2 =
      WSMessage.ack (backfillDeviceId cFix (mkScanFix "s9" 2)).scanId 555
        (pFix.submit (backfillDeviceId cFix (mkScanFix "s9" 2))).2 ∧
    (handleMessage pFix cFix (some (mkScanFix "s9" 2)) 555).1.db = pFix.db ∧
    (handleMessage pFix cFix (some (mkScanFix "s9" 2)) 555).1.blobs = pFix.blobs :=
  ack_reflects_queue_admission pFix cFix (mkScanFix "s9" 2) 555 (by decide)

/-! ## Claim C8 -/

/-- C8 counterexample: a frame rejected for device-ID mismatch and a frame
that fails to decode both leave the connection record untouched — the
`scansReceived` counter is not incremented and `lastScanAt` is not set,
contradicting the claim that every inbound frame updates them. -/
theorem rejected_frames_not_counted :
    (handleMessage pFix cFix (some { mkScanFix "s9" 2 with deviceId := "other" }) 555).2.1
      = cFix ∧
    (handleMessage pFix cFix none 555).2.1 = cFix ∧
    cFix.scansReceived = 0 ∧ cFix.lastScanAt = 0 :=
  ⟨by decide, by decide, by decide, by decide⟩

/-- C8 (amended): the connection counters are updated exactly for the frames
that decode successfully and pass the device-ID check: for those,
`scansReceived` is incremented and `lastScanAt` set to the receive time
regardless of validation or queue-admission outcome; frames that fail to
decode and frames rejected for device-ID mismatch leave the record
unchanged. -/
theorem connection_counter_update_policy (p : LiDARProcessor) (client : Client)
    (rt : Int) :
    ((handleMessage p client none rt).2.1 = client) ∧
    (∀ decoded : Scan, (backfillDeviceId client decoded).deviceId ≠ client.deviceId →
      (handleMessage p client (some decoded) rt).2.1 = client) ∧
    (∀ decoded : Scan, (backfillDeviceId client decoded).deviceId = client.deviceId →
      (handleMessage p client (some decoded) rt).2.1.scansReceived =
        client.scansReceived + 1 ∧
      (handleMessage p client (some decoded) rt).2.1.lastScanAt = rt) := by
  refine ⟨rfl, ?_, ?_⟩
  · intro decoded hne
    simp only [handleMessage]
    rw [if_pos hne]
  · intro decoded heq
    simp only [handleMessage]
    rw [if_neg (not_ne_iff.mpr heq)]
    exact ⟨rfl, rfl⟩

theorem connection_counter_update_policy_witness :
    (handleMessage pFix cFix none 555).2.1 = cFix ∧
    (handleMessage pFix cFix (some { mkScanFix "s9" 2 with deviceId := "other" }) 555).2.1
      = cFix ∧
    (handleMessage pFix cFix (some (mkScanFix "s9" 2)) 555).2.1.scansReceived =
      cFix.scansReceived + 1 ∧
    (handleMessage pFix cFix (some (mkScanFix "s9" 2)) 555).2.1.lastScanAt = 555 := by
  obtain ⟨w1, w2, w3⟩ := connection_counter_update_policy pFix cFix 555
  exact ⟨w1, w2 _ (by decide), (w3 _ (by decide)).1, (w3 _ (by decide)).2⟩

/-! ## Claim C7 -/

theorem jsOr_of_truthy (a b : Option String) (h : jsTruthy a = true) :
    jsOr a b = a := by
  cases a with
  | none => simp [jsTruthy] at h
  | some s =>
      simp only [jsTruthy, bne_iff_ne, ne_eq] at h
      simp only [jsOr]
      rw [if_neg (by simpa using h)]

theorem jsOr_of_falsy (a b : Option String) (h : jsTruthy a = false) :
    jsOr a b = b := by
  cases a with
  | none => rfl
  | some s =>
      simp only [jsTruthy, bne_eq_false_iff_eq] at h
      simp only [jsOr]
      rw [if_pos (by simpa using h)]

/-- C7 counterexample: with the device identifier present in BOTH the
deviceId query parameter and the x-device-id header, authentication succeeds
with the HEADER value, not the query value — the device identifier is
resolved header-first, contradicting query-parameter-first resolution. -/
theorem deviceId_resolved_header_first :
    authenticateConnection "secret" rFix =
      { authenticated := true, deviceId := some "header-dev", error := none } ∧
    rFix.queryDeviceId = some "query-dev" ∧
    some "header-dev" ≠ some "query-dev" :=
  ⟨by decide, by decide, by decide⟩

/-- C7 (amended): the API key is resolved query-parameter-first (the
x-api-key header is irrelevant whenever a query API key is present and
non-empty), but the device identifier is resolved HEADER-first: when
x-device-id is present and non-empty the query parameters are irrelevant,
and the query parameters are consulted only when the header is absent or
empty. -/
theorem credential_resolution_precedence (apiKeyEnv : String) (r : AuthRequest) :
    (jsTruthy (jsOr r.queryApiKey r.queryApiKeyAlt) = true →
      ∀ h : Option String,
        authenticateConnection apiKeyEnv r =
          authenticateConnection apiKeyEnv { r with headerApiKey := h }) ∧
    (jsTruthy r.headerDeviceId = true →
      ∀ q1 q2 : Option String,
        authenticateConnection apiKeyEnv r =
          authenticateConnection apiKeyEnv
            { r with queryDeviceId := q1, queryDeviceIdAlt := q2 }) ∧
    (jsTruthy r.headerDeviceId = false →
      authenticateConnection apiKeyEnv r =
        authenticateConnection apiKeyEnv { r with headerDeviceId := none }) := by
  refine ⟨?_, ?_, ?_⟩
  · intro ht h
    simp only [authenticateConnection]
    rw [jsOr_of_truthy _ r.headerApiKey ht, jsOr_of_truthy _ h ht]
  · intro ht q1 q2
    simp only [authenticateConnection]
    rw [jsOr_of_truthy _ (jsOr r.queryDeviceId r.queryDeviceIdAlt) ht,
      jsOr_of_truthy _ (jsOr q1 q2) ht]
  · intro hf
    simp only [authenticateConnection]
    rw [jsOr_of_falsy _ (jsOr r.queryDeviceId r.queryDeviceIdAlt) hf]
    rfl

theorem credential_resolution_precedence_witness :
    authenticateConnection "secret" rFix =
      authenticateConnection "secret" { rFix with headerApiKey := some "wrong" } ∧
    authenticateConnection "secret" rFix =
      authenticateConnection "secret"
        { rFix with queryDeviceId := none, queryDeviceIdAlt := none } := by
  obtain ⟨w1, w2, w3⟩ := credential_resolution_precedence "secret" rFix
  exact ⟨w1 (by decide) _, w2 (by decide) _ _⟩

/-! ## Claim C10 -/

theorem filter_map_replace (m : Registry) (k : String) (v : Client) :
    ((m.map (fun e => if e.1 == k then (k, v) else e)).filter (fun e => e.1 != k)) =
      m.filter (fun e => e.1 != k) := by
  induction m with
  | nil => rfl
  | cons e es ih =>
      simp only [List.map_cons, List.filter_cons]
      by_cases hc : e.1 == k
      · rw [if_pos hc]
        have hk : ((k, v).1 != k) = false := by simp
        have he : (e.1 != k) = false := by simpa using hc
        rw [hk, he]
        simpa using ih
      · rw [if_neg hc]
        have he : (e.1 != k) = true := by simpa using hc
        rw [he]
        simp only [if_true]
        rw [ih]

theorem mapDelete_mapSet (m : Registry) (k : String) (v : Client) :
    mapDelete (mapSet m k v) k = mapDelete m k := by
  simp only [mapSet, mapDelete]
  by_cases hc : m.any (fun e => e.1 == k)
  · rw [if_pos hc]
    exact filter_map_replace m k v
  · rw [if_neg hc]
    rw [List.filter_append]
    simp

theorem mem_mapDelete (m : Registry) (k : String) :
    ∀ e ∈ mapDelete m k, e ∈ m ∧ (e.1 == k) = false := by
  intro e he
  simp only [mapDelete, List.mem_filter] at he
  exact ⟨he.1, by simpa using he.2⟩

/-- C10: registry teardown is keyed only by deviceId: when a device
reconnects (its registry entry being replaced by the new connection) and
the superseded old socket then closes, the disconnect handler deletes the
entry for that deviceId, so the still-open replacement connection neither
appears in the active-client listing nor is targeted by broadcasts. -/
theorem registry_teardown_keyed_by_deviceId (reg : Registry) (w1 w2 : Nat)
    (d : String) (t1 t2 : Int)
    (hwf : reg.all (fun e => e.1 == e.2.deviceId) = true)
    (hws : reg.all (fun e => e.2.ws != w2) = true) :
    mapGet (handleDisconnect
      (handleConnection (handleConnection reg w1 d t1).1 w2 d t2).1
      (handleConnection reg w1 d t1).2) d = none ∧
    (getClients (handleDisconnect
      (handleConnection (handleConnection reg w1 d t1).1 w2 d t2).1
      (handleConnection reg w1 d t1).2)).all (fun i => i.deviceId != d) = true ∧
    (broadcastTargets (handleDisconnect
      (handleConnection (handleConnection reg w1 d t1).1 w2 d t2).1
      (handleConnection reg w1 d t1).2)).all (fun x => x != w2) = true := by
  have hred : handleDisconnect
      (handleConnection (handleConnection reg w1 d t1).1 w2 d t2).1
      (handleConnection reg w1 d t1).2 = mapDelete reg d := by
    simp only [handleConnection, handleDisconnect]
    rw [mapDelete_mapSet, mapDelete_mapSet]
  rw [hred]
  refine ⟨?_, ?_, ?_⟩
  · have hfind : (mapDelete reg d).find? (fun e => e.1 == d) = none := by
      rw [List.find?_eq_none]
      intro e he
      exact (by simpa using (mem_mapDelete reg d e he).2)
    simp [mapGet, hfind]
  · rw [List.all_eq_true]
    intro i hi
    simp only [getClients, List.mem_map] at hi
    obtain ⟨e, he, hie⟩ := hi
    obtain ⟨hmem, hkey⟩ := mem_mapDelete reg d e he
    have hdev : (e.1 == e.2.deviceId) = true := by
      have := List.all_eq_true.mp hwf e hmem
      simpa using this
    rw [← hie]
    simp only [bne_iff_ne, ne_eq]
    intro hcontra
    rw [beq_iff_eq] at hdev
    rw [← hdev] at hcontra
    simp [hcontra] at hkey
  · rw [List.all_eq_true]
    intro x hx
    simp only [broadcastTargets, List.mem_map] at hx
    obtain ⟨e, he, hxe⟩ := hx
    obtain ⟨hmem, _⟩ := mem_mapDelete reg d e he
    have := List.all_eq_true.mp hws e hmem
    rw [← hxe]
    simpa using this

theorem registry_teardown_keyed_by_deviceId_witness :
    mapGet (handleDisconnect
      (handleConnection (handleConnection ([] : Registry) 1 "dev" 0).1 2 "dev" 0).1
      (handleConnection ([] : Registry) 1 "dev" 0).2) "dev" = none ∧
    (getClients (handleDisconnect
      (handleConnection (handleConnection ([] : Registry) 1 "dev" 0).1 2 "dev" 0).1
      (handleConnection ([] : Registry) 1 "dev" 0).2)).all
        (fun i => i.deviceId != "dev") = true ∧
    (broadcastTargets (handleDisconnect
      (handleConnection (handleConnection ([] : Registry) 1 "dev" 0).1 2 "dev" 0).1
      (handleConnection ([] : Registry) 1 "dev" 0).2)).all (fun x => x != 2) = true :=
  registry_teardown_keyed_by_deviceId [] 1 2 "dev" 0 0 rfl rfl
